import Mathlib

/-!
Verification of the error-taxonomy crate: a shallow embedding of the
vocabulary enums, the six rich-lineage error-type generators of
src/macros.rs, the shared Display routine of src/server_error.rs, and the
generic lineage of src/lib.rs, together with theorems settling the frozen
claims about them.
-/

/-- Behaviour vocabulary, from src/server_error.rs (enum ServerErrorBehaviour). -/
inductive ServerErrorBehaviour where
  | ForwardToClient
  | LogWarningForwardToClient
  | LogErrorForwardToClient
  | LogWarningSendFixedMsgToClient (fixedMsg : String)
  | LogErrorSendFixedMsgToClient (fixedMsg : String)
  | ReturnInternalServerError
  | ReturnUnauthorized
  deriving DecidableEq

/-- Severity tag vocabulary, from src/server_error.rs (enum ServerErrorTag). -/
inductive ServerErrorTag where
  | None
  | Critical
  deriving DecidableEq

/-- Context-capture policy vocabulary, from src/server_error.rs (enum ServerErrorContext). -/
inductive ServerErrorContext where
  | Omit
  | Location
  | Backtrace
  deriving DecidableEq

/-- The data stored by every generated error struct: the fields context,
message and debug, identical across all six generators in src/macros.rs. -/
structure ErrorData where
  context : String
  message : String
  debug : Option String
  deriving DecidableEq

/-- One piece of a message template: literal text or a named argument slot.
Rust format templates are fixed at declaration time; this is their shallow
embedding. -/
inductive TemplatePiece where
  | lit (s : String)
  | arg (name : String)
  deriving DecidableEq

/-- Interpolation of caller-supplied rendered argument values into a template:
the semantics, at the level of rendered strings, of the format call each
constructor performs on its message template. -/
def interpolate (tmpl : List TemplatePiece) (args : String → String) : String :=
  tmpl.foldl (fun acc p =>
    acc ++ match p with
      | .lit s => s
      | .arg n => args n) ""

/-- A constructor call site as observed through track_caller and
std::panic::Location::caller(): the immediate caller's file and line. -/
structure CallSite where
  file : String
  line : Nat
  deriving DecidableEq

/-- The context string built by the Location-policy constructors in
src/macros.rs: the file, then a semicolon and space, then the line number,
then a semicolon. -/
def locationContext (l : CallSite) : String :=
  l.file ++ "; " ++ toString l.line ++ ";"

/-- Modelled from the spec: CLIENT_ERROR_MSG is an externally owned fixed
string (spec section 6), referenced by define_client_error but not defined
under src; its exact value lies outside this core and the development uses
it only symbolically. -/
def CLIENT_ERROR_MSG : String := "CLIENT_ERROR_MSG"

/-- Modelled from the spec: SENSITIVE_ERROR_MSG is the second externally
owned fixed string (spec section 6), referenced by define_sensitive_error
but not defined under src; used only symbolically. -/
def SENSITIVE_ERROR_MSG : String := "SENSITIVE_ERROR_MSG"

/-- Constructor new generated by define_internal_error (src/macros.rs, lines
20 to 26): context from Backtrace force capture, modelled as the ambient
backtrace string; message interpolated from the template; no debug payload. -/
def define_internal_error_new (tmpl : List TemplatePiece) (args : String → String)
    (bt : String) : ErrorData :=
  ⟨bt, interpolate tmpl args, none⟩

/-- Constructor with_debug generated by define_internal_error (src/macros.rs,
lines 27 to 37): like new, plus the rendered debug value. -/
def define_internal_error_with_debug (tmpl : List TemplatePiece)
    (args : String → String) (bt : String) (dbg : String) : ErrorData :=
  ⟨bt, interpolate tmpl args, some dbg⟩

/-- Constructor new generated by define_critical_error (src/macros.rs, lines
72 to 79): context from Backtrace force capture; the message is the string
CRITICAL followed by a semicolon and a space, prepended to the interpolated
template. -/
def define_critical_error_new (tmpl : List TemplatePiece) (args : String → String)
    (bt : String) : ErrorData :=
  ⟨bt, "CRITICAL; " ++ interpolate tmpl args, none⟩

/-- Constructor with_debug generated by define_critical_error (src/macros.rs,
lines 80 to 90): like new, plus the rendered debug value. -/
def define_critical_error_with_debug (tmpl : List TemplatePiece)
    (args : String → String) (bt : String) (dbg : String) : ErrorData :=
  ⟨bt, "CRITICAL; " ++ interpolate tmpl args, some dbg⟩

/-- Constructor new generated by define_client_error (src/macros.rs, lines
126 to 135): context from the caller's location; message interpolated. -/
def define_client_error_new (tmpl : List TemplatePiece) (args : String → String)
    (caller : CallSite) : ErrorData :=
  ⟨locationContext caller, interpolate tmpl args, none⟩

/-- Constructor with_debug generated by define_client_error (src/macros.rs,
lines 136 to 148). -/
def define_client_error_with_debug (tmpl : List TemplatePiece)
    (args : String → String) (caller : CallSite) (dbg : String) : ErrorData :=
  ⟨locationContext caller, interpolate tmpl args, some dbg⟩

/-- Constructor new generated by define_sensitive_error (src/macros.rs, lines
182 to 189): the context is the literal OMITTED string. -/
def define_sensitive_error_new (tmpl : List TemplatePiece)
    (args : String → String) : ErrorData :=
  ⟨"OMITTED", interpolate tmpl args, none⟩

/-- Constructor with_debug generated by define_sensitive_error (src/macros.rs,
lines 190 to 200). -/
def define_sensitive_error_with_debug (tmpl : List TemplatePiece)
    (args : String → String) (dbg : String) : ErrorData :=
  ⟨"OMITTED", interpolate tmpl args, some dbg⟩

/-- Constructor new generated by define_user_error (src/macros.rs, lines 235
to 243): context from the caller's location. -/
def define_user_error_new (tmpl : List TemplatePiece) (args : String → String)
    (caller : CallSite) : ErrorData :=
  ⟨locationContext caller, interpolate tmpl args, none⟩

/-- Constructor with_debug generated by define_user_error (src/macros.rs,
lines 245 to 257). -/
def define_user_error_with_debug (tmpl : List TemplatePiece)
    (args : String → String) (caller : CallSite) (dbg : String) : ErrorData :=
  ⟨locationContext caller, interpolate tmpl args, some dbg⟩

/-- Constructor new generated by define_temporary_error (src/macros.rs, lines
292 to 300): context from the caller's location. -/
def define_temporary_error_new (tmpl : List TemplatePiece) (args : String → String)
    (caller : CallSite) : ErrorData :=
  ⟨locationContext caller, interpolate tmpl args, none⟩

/-- Constructor with_debug generated by define_temporary_error (src/macros.rs,
lines 302 to 314). -/
def define_temporary_error_with_debug (tmpl : List TemplatePiece)
    (args : String → String) (caller : CallSite) (dbg : String) : ErrorData :=
  ⟨locationContext caller, interpolate tmpl args, some dbg⟩

/-- The shape of a trait-implementation block as emitted by the generators in
src/macros.rs. The trait ServerErrorTrait in src/server_error.rs, lines 30 to
38, requires five methods: behaviour, tag, context, message and debug. The
emitted blocks define only behaviour, message and debug, so tag and context
are recorded as optional method bodies: none means the emitted block does not
define that method. -/
structure GeneratedImpl where
  behaviour : ErrorData → ServerErrorBehaviour
  message : ErrorData → String
  debug : ErrorData → Option String
  tag? : Option (ErrorData → ServerErrorTag)
  context? : Option (ErrorData → String)

/-- An emitted implementation satisfies the full ServerErrorTrait contract of
src/server_error.rs only if it defines all five required methods. -/
def implementsFullTrait (i : GeneratedImpl) : Bool :=
  i.tag?.isSome && i.context?.isSome

/-- The trait-implementation block emitted by define_internal_error
(src/macros.rs, lines 40 to 50). -/
def define_internal_error_impl : GeneratedImpl :=
  ⟨fun _ => .ReturnInternalServerError, fun e => e.message, fun e => e.debug,
    none, none⟩

/-- The trait-implementation block emitted by define_critical_error
(src/macros.rs, lines 93 to 103). -/
def define_critical_error_impl : GeneratedImpl :=
  ⟨fun _ => .ReturnInternalServerError, fun e => e.message, fun e => e.debug,
    none, none⟩

/-- The trait-implementation block emitted by define_client_error
(src/macros.rs, lines 151 to 162). -/
def define_client_error_impl : GeneratedImpl :=
  ⟨fun _ => .LogErrorSendFixedMsgToClient CLIENT_ERROR_MSG, fun e => e.message,
    fun e => e.debug, none, none⟩

/-- The trait-implementation block emitted by define_sensitive_error
(src/macros.rs, lines 203 to 214). -/
def define_sensitive_error_impl : GeneratedImpl :=
  ⟨fun _ => .LogErrorSendFixedMsgToClient SENSITIVE_ERROR_MSG, fun e => e.message,
    fun e => e.debug, none, none⟩

/-- The trait-implementation block emitted by define_user_error
(src/macros.rs, lines 260 to 271). -/
def define_user_error_impl : GeneratedImpl :=
  ⟨fun _ => .LogWarningForwardToClient, fun e => e.message, fun e => e.debug,
    none, none⟩

/-- The trait-implementation block emitted by define_temporary_error
(src/macros.rs, lines 317 to 327). -/
def define_temporary_error_impl : GeneratedImpl :=
  ⟨fun _ => .LogWarningForwardToClient, fun e => e.message, fun e => e.debug,
    none, none⟩

/-- Bold styling applied by the colored crate in src/server_error.rs,
modelled in colors-enabled mode as ANSI escape wrapping. -/
def bold (s : String) : String := "\x1b[1m" ++ s ++ "\x1b[0m"

/-- Bold red styling applied to the critical marker in src/server_error.rs,
modelled in colors-enabled mode as ANSI escape wrapping. -/
def boldRed (s : String) : String := "\x1b[1;31m" ++ s ++ "\x1b[0m"

/-- The tag branch of the shared Display implementation (src/server_error.rs,
lines 42 to 47): nothing for None, the bold red CRITICAL marker for
Critical. -/
def tagHeader : ServerErrorTag → String
  | .None => ""
  | .Critical => boldRed "CRITICAL"

/-- Rendering of a string field inside the derived Debug dump; the escape
sequences Rust Debug formatting would insert inside the quotes are not
modelled. -/
def quoteDbg (s : String) : String := "\"" ++ s ++ "\""

/-- Rendering of the optional debug field inside the pretty Debug dump. -/
def debugFieldDump : Option String → String
  | none => "None"
  | some d => "Some(\n        " ++ quoteDbg d ++ ",\n    )"

/-- The pretty structural dump written by the Display implementation: the
derived Debug rendering, with the alternate flag, of a generated struct with
the given name and the three stored fields. -/
def debugDump (name : String) (e : ErrorData) : String :=
  name ++ " \x7b\n    context: " ++ quoteDbg e.context ++ ",\n    message: "
    ++ quoteDbg e.message ++ ",\n    debug: " ++ debugFieldDump e.debug
    ++ ",\n\x7d"

/-- The shared Display routine for boxed ServerErrorTrait values
(src/server_error.rs, lines 40 to 50): the tag header, then the bolded
message, a newline, and the structural dump. -/
def renderDisplay (t : ServerErrorTag) (msg dump : String) : String :=
  tagHeader t ++ bold msg ++ "\n" ++ dump

/-- Display of a generated error value of a type whose tag constant is t and
whose struct name is n: the Display routine reads the tag, the message and
the Debug dump of the value. -/
def renderError (t : ServerErrorTag) (n : String) (e : ErrorData) : String :=
  renderDisplay t e.message (debugDump n e)

/-- Modelled from the spec: the generic-lineage generators (such as
define_internal_error_type, invoked in common.rs) are not present under src;
spec sections 4.6 and 6 fix three declaration shapes: plain user-visible,
user-visible-with-visible-info, and internal. -/
inductive GenericShape where
  | userVisible
  | userVisibleWithInfo
  | internal
  deriving DecidableEq

/-- Modelled from the spec: an instance of a generic-lineage error type,
carrying its declaration shape, the caller-supplied visible info string, and
an optional opaque debug payload. -/
structure GenericErrorData where
  shape : GenericShape
  visibleInfo : String
  debug : Option String
  deriving DecidableEq

/-- Modelled from the spec: the plain constructor of a generic-lineage type. -/
def generic_new (s : GenericShape) (info : String) : GenericErrorData :=
  ⟨s, info, none⟩

/-- Modelled from the spec: the debug-carrying constructor of a
generic-lineage type. -/
def generic_with_debug (s : GenericShape) (info : String) (dbg : String) :
    GenericErrorData :=
  ⟨s, info, some dbg⟩

/-- Modelled from the spec: the default constructor of a generic-lineage
type, yielding an all-empty instance (spec section 6). -/
def generic_default (s : GenericShape) : GenericErrorData :=
  ⟨s, "", none⟩

/-- Modelled from the spec: should_be_shown_to_client, required by
GenericServerErrorTrait in src/lib.rs, is fixed per declaration shape: true
for the two user-visible shapes, false for the internal shape (spec section
4.6). -/
def should_be_shown_to_client (e : GenericErrorData) : Bool :=
  match e.shape with
  | .userVisible => true
  | .userVisibleWithInfo => true
  | .internal => false

/-- The message template of test_client_error in src/server_error.rs: a
literal, the code argument slot, and a period. -/
def clientErrorTemplate : List TemplatePiece :=
  [.lit "A client error occurred: ", .arg "code", .lit "."]

/-- ClientError new as generated by define_client_error for the
test_client_error template, with its single integer field code rendered the
way the format call renders it. -/
def ClientError_new (code : Int) (caller : CallSite) : ErrorData :=
  define_client_error_new clientErrorTemplate
    (fun n => if n = "code" then toString code else "") caller

/-- The zero-field message template of test_critical_error in
src/server_error.rs. -/
def criticalErrorTemplate : List TemplatePiece :=
  [.lit "A critical error occurred."]

/-- Appending a non-empty string on the right never yields the empty string. -/
theorem append_ne_empty_right (a b : String) (hb : b ≠ "") : a ++ b ≠ "" := by
  intro h
  apply hb
  have hd := congrArg String.data h
  rw [String.data_append] at hd
  exact String.ext (List.append_eq_nil.mp hd).2

/-- Appending a non-empty string on the left changes the string. -/
theorem append_left_ne_self (a x : String) (ha : a ≠ "") : a ++ x ≠ x := by
  intro h
  apply ha
  have hl := congrArg String.length h
  rw [String.length_append] at hl
  have h0 : a.length = 0 := by omega
  have h1 : a.data.length = 0 := h0
  exact String.ext (List.length_eq_zero.mp h1)

/-- A Location-policy context string is never empty: it ends in a semicolon. -/
theorem locationContext_ne_empty (l : CallSite) : locationContext l ≠ "" := by
  unfold locationContext
  exact append_ne_empty_right _ ";" (by decide)

/-- The empty string is a left identity of append. -/
theorem str_empty_append (s : String) : "" ++ s = s := rfl

/-- C1: every rich-lineage generator must equip its type with the full
ServerErrorTrait contract, including a tag method returning the fixed tag
constant and a context method returning the stored context string; but the
trait-implementation blocks emitted by all six generators in src/macros.rs
define only behaviour, message and debug, so none of the generated types
implements the full contract, while message and debug are indeed reads of
the stored fields. -/
theorem claim_C1_generated_impls_lack_tag_and_context :
    implementsFullTrait define_internal_error_impl = false
  ∧ implementsFullTrait define_critical_error_impl = false
  ∧ implementsFullTrait define_client_error_impl = false
  ∧ implementsFullTrait define_sensitive_error_impl = false
  ∧ implementsFullTrait define_user_error_impl = false
  ∧ implementsFullTrait define_temporary_error_impl = false
  ∧ (∀ e : ErrorData,
        define_internal_error_impl.message e = e.message
      ∧ define_internal_error_impl.debug e = e.debug) := by
  exact ⟨rfl, rfl, rfl, rfl, rfl, rfl, fun e => ⟨rfl, rfl⟩⟩

/-- C2: for the internal, client, sensitive, user and temporary generators,
and for both constructors, the stored message is exactly the interpolated
template; but define_critical_error prepends a CRITICAL marker in both of
its constructors, so on the critical test template of src/server_error.rs
the message differs from the interpolated template. -/
theorem claim_C2_critical_message_is_not_the_template :
    (∀ tmpl args bt dbg,
        (define_internal_error_new tmpl args bt).message = interpolate tmpl args
      ∧ (define_internal_error_with_debug tmpl args bt dbg).message
          = interpolate tmpl args)
  ∧ (∀ tmpl args caller dbg,
        (define_client_error_new tmpl args caller).message = interpolate tmpl args
      ∧ (define_client_error_with_debug tmpl args caller dbg).message
          = interpolate tmpl args
      ∧ (define_user_error_new tmpl args caller).message = interpolate tmpl args
      ∧ (define_user_error_with_debug tmpl args caller dbg).message
          = interpolate tmpl args
      ∧ (define_temporary_error_new tmpl args caller).message
          = interpolate tmpl args
      ∧ (define_temporary_error_with_debug tmpl args caller dbg).message
          = interpolate tmpl args)
  ∧ (∀ tmpl args dbg,
        (define_sensitive_error_new tmpl args).message = interpolate tmpl args
      ∧ (define_sensitive_error_with_debug tmpl args dbg).message
          = interpolate tmpl args)
  ∧ (∀ tmpl args bt dbg,
        (define_critical_error_new tmpl args bt).message
          = "CRITICAL; " ++ interpolate tmpl args
      ∧ (define_critical_error_with_debug tmpl args bt dbg).message
          = "CRITICAL; " ++ interpolate tmpl args)
  ∧ (∀ args bt dbg,
        (define_critical_error_with_debug criticalErrorTemplate args bt dbg).message
          = "CRITICAL; A critical error occurred."
      ∧ interpolate criticalErrorTemplate args = "A critical error occurred."
      ∧ (define_critical_error_with_debug criticalErrorTemplate args bt dbg).message
          ≠ interpolate criticalErrorTemplate args) := by
  refine ⟨fun tmpl args bt dbg => ⟨rfl, rfl⟩,
    fun tmpl args caller dbg => ⟨rfl, rfl, rfl, rfl, rfl, rfl⟩,
    fun tmpl args dbg => ⟨rfl, rfl⟩,
    fun tmpl args bt dbg => ⟨rfl, rfl⟩,
    fun args bt dbg => ⟨rfl, rfl, fun h =>
      (by decide :
        ¬ (("CRITICAL; A critical error occurred." : String)
            = "A critical error occurred.")) h⟩⟩

/-- C3: the behaviour method emitted by each of the six generators is a
constant function of the instance, so any two instances of the same type
agree on behaviour; but no generator emits a tag method at all, so tag is
not a per-type constant returned by instances as the claim states. -/
theorem claim_C3_behaviour_constant_tag_not_generated :
    (∀ e e' : ErrorData,
        define_internal_error_impl.behaviour e = define_internal_error_impl.behaviour e'
      ∧ define_critical_error_impl.behaviour e = define_critical_error_impl.behaviour e'
      ∧ define_client_error_impl.behaviour e = define_client_error_impl.behaviour e'
      ∧ define_sensitive_error_impl.behaviour e = define_sensitive_error_impl.behaviour e'
      ∧ define_user_error_impl.behaviour e = define_user_error_impl.behaviour e'
      ∧ define_temporary_error_impl.behaviour e = define_temporary_error_impl.behaviour e')
  ∧ define_internal_error_impl.tag? = none
  ∧ define_critical_error_impl.tag? = none
  ∧ define_client_error_impl.tag? = none
  ∧ define_sensitive_error_impl.tag? = none
  ∧ define_user_error_impl.tag? = none
  ∧ define_temporary_error_impl.tag? = none := by
  exact ⟨fun e e' => ⟨rfl, rfl, rfl, rfl, rfl, rfl⟩, rfl, rfl, rfl, rfl, rfl, rfl⟩

/-- C4: for the client-error type of test_client_error, constructing with the
integer 404 from any call site yields the message with 404 interpolated, and
the behaviour constant is the masking variant carrying CLIENT_ERROR_MSG. -/
theorem claim_C4_client_error_404 :
    ∀ caller : CallSite,
      (ClientError_new 404 caller).message = "A client error occurred: 404."
    ∧ define_client_error_impl.behaviour (ClientError_new 404 caller)
        = ServerErrorBehaviour.LogErrorSendFixedMsgToClient CLIENT_ERROR_MSG := by
  intro caller
  exact ⟨rfl, rfl⟩

/-- C5: both constructors of define_sensitive_error store the literal
OMITTED string as the context, for every template, field values and debug
payload; however the emitted trait-implementation block does not define the
context accessor the claim reads the value through. -/
theorem claim_C5_sensitive_context_omitted :
    (∀ tmpl args dbg,
        (define_sensitive_error_new tmpl args).context = "OMITTED"
      ∧ (define_sensitive_error_with_debug tmpl args dbg).context = "OMITTED")
  ∧ define_sensitive_error_impl.context? = none := by
  exact ⟨fun tmpl args dbg => ⟨rfl, rfl⟩, rfl⟩

/-- C6: both constructors of the client, user and temporary generators store
as context exactly the caller's file and line, formatted with semicolons,
and that string is never empty; however the emitted trait-implementation
blocks do not define the context accessor the claim reads the value
through. -/
theorem claim_C6_location_context_is_call_site :
    (∀ tmpl args caller dbg,
        (define_client_error_new tmpl args caller).context = locationContext caller
      ∧ (define_client_error_with_debug tmpl args caller dbg).context
          = locationContext caller
      ∧ (define_user_error_new tmpl args caller).context = locationContext caller
      ∧ (define_user_error_with_debug tmpl args caller dbg).context
          = locationContext caller
      ∧ (define_temporary_error_new tmpl args caller).context = locationContext caller
      ∧ (define_temporary_error_with_debug tmpl args caller dbg).context
          = locationContext caller)
  ∧ (∀ caller : CallSite,
        locationContext caller = caller.file ++ "; " ++ toString caller.line ++ ";"
      ∧ locationContext caller ≠ "")
  ∧ define_client_error_impl.context? = none
  ∧ define_user_error_impl.context? = none
  ∧ define_temporary_error_impl.context? = none := by
  refine ⟨fun tmpl args caller dbg => ⟨rfl, rfl, rfl, rfl, rfl, rfl⟩,
    fun caller => ⟨rfl, locationContext_ne_empty caller⟩, rfl, rfl, rfl⟩

/-- C7: the shared Display routine composes, in order, the tag header
(empty for None, non-empty for Critical), the bolded message, a newline and
the structural dump; the dump exposes the stored context, message and, when
present, debug fields; and the rendering of a Critical-tagged value is the
rendering of the same None-tagged value with the critical marker in front,
hence distinct from it. -/
theorem claim_C7_display_composition :
    (∀ n e, renderError ServerErrorTag.None n e
        = bold e.message ++ "\n" ++ debugDump n e)
  ∧ (∀ n e, renderError ServerErrorTag.Critical n e
        = boldRed "CRITICAL" ++ bold e.message ++ "\n" ++ debugDump n e)
  ∧ tagHeader ServerErrorTag.None = ""
  ∧ tagHeader ServerErrorTag.Critical ≠ ""
  ∧ (∀ n e, ∃ pre post, debugDump n e = pre ++ (e.context ++ post))
  ∧ (∀ n e, ∃ pre post, debugDump n e = pre ++ (e.message ++ post))
  ∧ (∀ n c m d, ∃ pre post,
        debugDump n ⟨c, m, some d⟩ = pre ++ (d ++ post))
  ∧ (∀ n e, renderError ServerErrorTag.Critical n e
        = boldRed "CRITICAL" ++ renderError ServerErrorTag.None n e)
  ∧ (∀ n e, renderError ServerErrorTag.Critical n e
        ≠ renderError ServerErrorTag.None n e) := by
  have hmerge : ∀ n e, renderError ServerErrorTag.Critical n e
      = boldRed "CRITICAL" ++ renderError ServerErrorTag.None n e := by
    intro n e
    simp only [renderError, renderDisplay, tagHeader, str_empty_append,
      String.append_assoc]
  refine ⟨fun n e => rfl, fun n e => rfl, rfl, by decide,
    fun n e => ⟨n ++ " \x7b\n    context: " ++ "\"",
      "\"" ++ ",\n    message: " ++ quoteDbg e.message ++ ",\n    debug: "
        ++ debugFieldDump e.debug ++ ",\n\x7d", ?_⟩,
    fun n e => ⟨n ++ " \x7b\n    context: " ++ quoteDbg e.context
        ++ ",\n    message: " ++ "\"",
      "\"" ++ ",\n    debug: " ++ debugFieldDump e.debug ++ ",\n\x7d", ?_⟩,
    fun n c m d => ⟨n ++ " \x7b\n    context: " ++ quoteDbg c
        ++ ",\n    message: " ++ quoteDbg m ++ ",\n    debug: "
        ++ "Some(\n        " ++ "\"",
      "\"" ++ ",\n    )" ++ ",\n\x7d", ?_⟩,
    hmerge, fun n e => ?_⟩
  · simp only [debugDump, quoteDbg, String.append_assoc]
  · simp only [debugDump, quoteDbg, String.append_assoc]
  · simp only [debugDump, quoteDbg, debugFieldDump, String.append_assoc]
  · rw [hmerge n e]
    exact append_left_ne_self _ _ (by decide)

/-- C8: the shared Display routine is deterministic: rendering an
already-constructed error value twice yields the same string, and the output
depends only on the immutable stored fields and the type-fixed tag constant. -/
theorem claim_C8_display_deterministic (t : ServerErrorTag) (n : String)
    (e e' : ErrorData) (hc : e.context = e'.context) (hm : e.message = e'.message)
    (hd : e.debug = e'.debug) :
    renderError t n e = renderError t n e
  ∧ renderError t n e = renderError t n e' := by
  have he : e = e' := by
    cases e
    cases e'
    simp_all
  subst he
  exact ⟨rfl, rfl⟩

/-- Witness for C8 at a concrete critical error value. -/
theorem claim_C8_display_deterministic_witness :
    renderError ServerErrorTag.Critical "CriticalError" ⟨"ctx", "msg", some "dbg"⟩
      = renderError ServerErrorTag.Critical "CriticalError" ⟨"ctx", "msg", some "dbg"⟩
  ∧ renderError ServerErrorTag.Critical "CriticalError" ⟨"ctx", "msg", some "dbg"⟩
      = renderError ServerErrorTag.Critical "CriticalError" ⟨"ctx", "msg", some "dbg"⟩ :=
  claim_C8_display_deterministic ServerErrorTag.Critical "CriticalError"
    ⟨"ctx", "msg", some "dbg"⟩ ⟨"ctx", "msg", some "dbg"⟩ rfl rfl rfl

/-- C9: in the generic lineage, should_be_shown_to_client is fixed per
declaration shape: true for every instance of the two user-visible shapes and
false for every instance of the internal shape, for the plain, debug-carrying
and default constructors alike. -/
theorem claim_C9_should_be_shown_per_shape :
    (∀ info dbg,
        should_be_shown_to_client (generic_new GenericShape.userVisible info) = true
      ∧ should_be_shown_to_client
          (generic_with_debug GenericShape.userVisible info dbg) = true
      ∧ should_be_shown_to_client
          (generic_new GenericShape.userVisibleWithInfo info) = true
      ∧ should_be_shown_to_client
          (generic_with_debug GenericShape.userVisibleWithInfo info dbg) = true
      ∧ should_be_shown_to_client (generic_new GenericShape.internal info) = false
      ∧ should_be_shown_to_client
          (generic_with_debug GenericShape.internal info dbg) = false)
  ∧ should_be_shown_to_client (generic_default GenericShape.userVisible) = true
  ∧ should_be_shown_to_client (generic_default GenericShape.userVisibleWithInfo) = true
  ∧ should_be_shown_to_client (generic_default GenericShape.internal) = false := by
  exact ⟨fun info dbg => ⟨rfl, rfl, rfl, rfl, rfl, rfl⟩, rfl, rfl, rfl⟩

/-- C10: the behaviour constant emitted by define_sensitive_error is the
masking variant carrying SENSITIVE_ERROR_MSG, for every instance from either
constructor, and in particular it is not ReturnUnauthorized. -/
theorem claim_C10_sensitive_behaviour_masks :
    ∀ e : ErrorData,
      define_sensitive_error_impl.behaviour e
        = ServerErrorBehaviour.LogErrorSendFixedMsgToClient SENSITIVE_ERROR_MSG
    ∧ define_sensitive_error_impl.behaviour e
        ≠ ServerErrorBehaviour.ReturnUnauthorized := by
  intro e
  exact ⟨rfl, fun h => ServerErrorBehaviour.noConfusion h⟩
